import Mathlib

/-!
Verification of the cvc-go NIST P-256 composite-operation layer.

The repository ships only the public headers under src/include; the function
bodies live outside src/. Following the specification, the implementations are
modelled here faithfully from the spec's component contracts (sections 4.1-4.6)
and from the header documentation.

Modelling decisions, stated once:

* The external big-integer / elliptic-curve engine (MIRACL) is out of scope per
  the spec ("treated as external collaborators"). The P-256 group is cyclic of
  prime order n, so a curve point is represented by its discrete logarithm with
  respect to the base point G: the point k·G is the value k % curveOrder, and 0
  represents the point at infinity. Point addition is addition of exponents
  mod n, and scalar multiplication d ↦ d·G is d % n. This representation is an
  exact group isomorphism; every statement about points transfers verbatim.
* The point codec (65-byte uncompressed tag‖X‖Y encoding) is injective on valid
  points, so a decoded input is modelled as the point it denotes plus the byte
  length of the raw buffer; equality of the abstract points is equality of the
  65-byte encodings.
* The scalar codec (32-byte big-endian buffers) is modelled concretely:
  bytesToNat / natToBytes32 below.
* All byte buffers are lists of naturals already reduced modulo 256 at the
  codec boundary; machine words are Nat with explicit reduction.
-/

namespace CVC

/-- Order n of the NIST P-256 base-point group (a prime). -/
def curveOrder : Nat :=
  0xffffffff00000000ffffffffffffffffbce6faada7179e84f3b9cac2fc632551

/-- Field modulus p of the NIST P-256 curve. -/
def fieldModulus : Nat :=
  0xffffffff00000001000000000000000000000000ffffffffffffffffffffffff

/-- Big-endian interpretation of a byte buffer as an unsigned integer
(each entry taken modulo 256, matching a byte array). -/
def bytesToNat (bs : List Nat) : Nat :=
  bs.foldl (fun acc b => acc * 256 + b % 256) 0

/-- Fixed-width big-endian encoding of a natural number: the low 8·w bits of
the value as w bytes, most significant first (BIG_256_56_toBytes semantics). -/
def natToBytesBE : Nat → Nat → List Nat
  | 0, _ => []
  | w + 1, v => natToBytesBE w (v / 256) ++ [v % 256]

/-- The 32-byte big-endian scalar encoding used throughout the library. -/
def natToBytes32 (v : Nat) : List Nat := natToBytesBE 32 v

/-- Modelled from the spec: KeyMaterial record of nist256_key_material.h.
The missing body of the extractor lives outside src/. The two 32-byte public
coordinate buffers public_key_x_bytes / public_key_y_bytes are abstracted to
the curve point they jointly encode, represented by its discrete logarithm
(the codec is injective on valid points, so this loses nothing). -/
structure nist256_key_material_t where
  private_key_bytes : List Nat
  public_point : Nat
deriving DecidableEq, Repr

/-- Modelled from the spec: KeyMaterialExtractor (spec 4.2), body of
nist256_big_to_key_material missing from src/. Computes public = d·G,
fails defensively if that point is at infinity, serializes the private
scalar to 32 bytes. -/
def nist256_big_to_key_material (d : Nat) : Option nist256_key_material_t :=
  if d % curveOrder = 0 then none
  else some { private_key_bytes := natToBytes32 d, public_point := d % curveOrder }

/-- Result codes for secret key addition operations (add_secret_keys.h). -/
inductive cvc_add_secret_keys_result_t where
  | CVC_ADD_SECRET_KEYS_SUCCESS
  | CVC_ADD_SECRET_KEYS_ERROR_INVALID_PARAMS
  | CVC_ADD_SECRET_KEYS_ERROR_INVALID_KEY1
  | CVC_ADD_SECRET_KEYS_ERROR_INVALID_KEY2
  | CVC_ADD_SECRET_KEYS_ERROR_RESULT_ZERO
  | CVC_ADD_SECRET_KEYS_ERROR_KEY_EXTRACTION_FAILED
deriving DecidableEq, Repr

/-- Numeric values of the add-secret-keys result codes, from the header. -/
def cvc_add_secret_keys_result_t.code : cvc_add_secret_keys_result_t → Int
  | .CVC_ADD_SECRET_KEYS_SUCCESS => 0
  | .CVC_ADD_SECRET_KEYS_ERROR_INVALID_PARAMS => -1
  | .CVC_ADD_SECRET_KEYS_ERROR_INVALID_KEY1 => -2
  | .CVC_ADD_SECRET_KEYS_ERROR_INVALID_KEY2 => -3
  | .CVC_ADD_SECRET_KEYS_ERROR_RESULT_ZERO => -4
  | .CVC_ADD_SECRET_KEYS_ERROR_KEY_EXTRACTION_FAILED => -5

/-- Modelled from the spec: SecretKeyCombiner (spec 4.3), body of
cvc_add_nist256_secret_keys missing from src/. A NULL byte-buffer argument is
Option.none; the separate length parameter of the C signature is the list
length; result_ptr records whether the output pointer is non-NULL. On failure
no key material is produced (no partial results). -/
def cvc_add_nist256_secret_keys (key1_bytes key2_bytes : Option (List Nat))
    (result_ptr : Bool) :
    cvc_add_secret_keys_result_t × Option nist256_key_material_t :=
  match key1_bytes, key2_bytes with
  | some k1, some k2 =>
    if result_ptr = false then
      (.CVC_ADD_SECRET_KEYS_ERROR_INVALID_PARAMS, none)
    else if k1.length ≠ 32 ∨ k2.length ≠ 32 then
      (.CVC_ADD_SECRET_KEYS_ERROR_INVALID_PARAMS, none)
    else
      let v1 := bytesToNat k1
      let v2 := bytesToNat k2
      if v1 = 0 ∨ curveOrder ≤ v1 then
        (.CVC_ADD_SECRET_KEYS_ERROR_INVALID_KEY1, none)
      else if v2 = 0 ∨ curveOrder ≤ v2 then
        (.CVC_ADD_SECRET_KEYS_ERROR_INVALID_KEY2, none)
      else
        let s := (v1 + v2) % curveOrder
        if s = 0 then
          (.CVC_ADD_SECRET_KEYS_ERROR_RESULT_ZERO, none)
        else
          match nist256_big_to_key_material s with
          | some km => (.CVC_ADD_SECRET_KEYS_SUCCESS, some km)
          | none => (.CVC_ADD_SECRET_KEYS_ERROR_KEY_EXTRACTION_FAILED, none)
  | _, _ => (.CVC_ADD_SECRET_KEYS_ERROR_INVALID_PARAMS, none)

/-- Result codes for ECP operations (ecp_operations.h). -/
inductive cvc_ecp_result_t where
  | CVC_ECP_SUCCESS
  | CVC_ECP_ERROR_INVALID_KEY1_LENGTH
  | CVC_ECP_ERROR_INVALID_KEY2_LENGTH
  | CVC_ECP_ERROR_INVALID_POINT_1
  | CVC_ECP_ERROR_INVALID_POINT_2
  | CVC_ECP_ERROR_POINT_1_AT_INFINITY
  | CVC_ECP_ERROR_POINT_2_AT_INFINITY
  | CVC_ECP_ERROR_RESULT_AT_INFINITY
  | CVC_ECP_ERROR_RESULT_CONVERSION_FAILED
  | CVC_ECP_ERROR_INSUFFICIENT_BUFFER
deriving DecidableEq, Repr

/-- Numeric values of the ECP result codes, from the header. -/
def cvc_ecp_result_t.code : cvc_ecp_result_t → Int
  | .CVC_ECP_SUCCESS => 0
  | .CVC_ECP_ERROR_INVALID_KEY1_LENGTH => -1
  | .CVC_ECP_ERROR_INVALID_KEY2_LENGTH => -2
  | .CVC_ECP_ERROR_INVALID_POINT_1 => -3
  | .CVC_ECP_ERROR_INVALID_POINT_2 => -4
  | .CVC_ECP_ERROR_POINT_1_AT_INFINITY => -5
  | .CVC_ECP_ERROR_POINT_2_AT_INFINITY => -6
  | .CVC_ECP_ERROR_RESULT_AT_INFINITY => -7
  | .CVC_ECP_ERROR_RESULT_CONVERSION_FAILED => -8
  | .CVC_ECP_ERROR_INSUFFICIENT_BUFFER => -9

/-- Modelled from the spec: a caller-supplied public-key byte buffer as seen
through the PointCodec (spec 4.1, external MIRACL decoder). len is the byte
length of the raw buffer; decoded is some k when the buffer is a well-formed
encoding of the curve point k·G (k % curveOrder = 0 meaning the point at
infinity), and none when the bytes do not describe a point on the curve. -/
structure PointInput where
  len : Nat
  decoded : Option Nat
deriving DecidableEq, Repr

/-- The 65-byte uncompressed encoding of the point d·G as a PointInput. -/
def encodePoint (d : Nat) : PointInput :=
  { len := 65, decoded := some (d % curveOrder) }

/-- Modelled from the spec: PublicKeyCombiner (spec 4.4), body of
cvc_add_nist256_public_keys missing from src/. Returns the result code and,
on success, the resulting point (whose serialization is always exactly 65
bytes, so the ResultConversionFailed branch is unreachable in the model). -/
def cvc_add_nist256_public_keys (key1 key2 : PointInput)
    (result_buffer_size : Nat) : cvc_ecp_result_t × Option Nat :=
  if key1.len ≠ 65 then (.CVC_ECP_ERROR_INVALID_KEY1_LENGTH, none)
  else if key2.len ≠ 65 then (.CVC_ECP_ERROR_INVALID_KEY2_LENGTH, none)
  else
    match key1.decoded with
    | none => (.CVC_ECP_ERROR_INVALID_POINT_1, none)
    | some p1 =>
      match key2.decoded with
      | none => (.CVC_ECP_ERROR_INVALID_POINT_2, none)
      | some p2 =>
        if p1 % curveOrder = 0 then (.CVC_ECP_ERROR_POINT_1_AT_INFINITY, none)
        else if p2 % curveOrder = 0 then (.CVC_ECP_ERROR_POINT_2_AT_INFINITY, none)
        else if (p1 + p2) % curveOrder = 0 then (.CVC_ECP_ERROR_RESULT_AT_INFINITY, none)
        else if result_buffer_size < 65 then (.CVC_ECP_ERROR_INSUFFICIENT_BUFFER, none)
        else (.CVC_ECP_SUCCESS, some ((p1 + p2) % curveOrder))

/-- Result codes for hash-to-field operations (hash_to_field.h). -/
inductive cvc_hash_to_field_result_t where
  | CVC_HASH_TO_FIELD_SUCCESS
  | CVC_HASH_TO_FIELD_ERROR_INVALID_PARAMS
  | CVC_HASH_TO_FIELD_ERROR_EXPAND_FAILED
  | CVC_HASH_TO_FIELD_ERROR_EXPANSION_TOO_LARGE
deriving DecidableEq, Repr

/-- Numeric values of the hash-to-field result codes, from the header. -/
def cvc_hash_to_field_result_t.code : cvc_hash_to_field_result_t → Int
  | .CVC_HASH_TO_FIELD_SUCCESS => 0
  | .CVC_HASH_TO_FIELD_ERROR_INVALID_PARAMS => -1
  | .CVC_HASH_TO_FIELD_ERROR_EXPAND_FAILED => -2
  | .CVC_HASH_TO_FIELD_ERROR_EXPANSION_TOO_LARGE => -3

/-- Result codes for secret key derivation operations (hash_to_field.h). -/
inductive cvc_derive_key_result_t where
  | CVC_DERIVE_KEY_SUCCESS
  | CVC_DERIVE_KEY_ERROR_INVALID_PARAMS
  | CVC_DERIVE_KEY_ERROR_INPUT_TOO_LARGE
  | CVC_DERIVE_KEY_ERROR_HASH_TO_FIELD_FAILED
  | CVC_DERIVE_KEY_ERROR_ZERO_SCALAR
  | CVC_DERIVE_KEY_ERROR_KEY_EXTRACTION_FAILED
deriving DecidableEq, Repr

/-- The RFC 9380 field-element expansion length L for P-256:
ceil((256 + 128) / 8) = 48 bytes per element. -/
def hashToFieldL : Nat := 48

/-- Modelled from the spec: the implementation-defined maximum XMD expansion
length (spec 4.5 step 2 and design note: 255 × the 32-byte SHA-256 output). -/
def maxExpansionBytes : Nat := 255 * 32

/-- Modelled from the spec: the implementation-defined maximum combined
master-key + context input size of the key deriver (spec 4.6 step 1). -/
def maxCombinedInput : Nat := 512

/-- MIRACL hash-family identifier for the SHA-2 family. -/
def MC_SHA2 : Nat := 2

/-- MIRACL SHA-256 output length used for P-256 (HASH_TYPE_NIST256). -/
def HASH_TYPE_NIST256 : Nat := 32

/-- Modelled from the spec: a deterministic seed folding all
expand_message_xmd inputs into one 64-bit word. The concrete SHA-2
compression is part of the external hash engine and is not in src/; only
determinism in (hash, hash_len, dst, message) and the output length matter
to the spec's claims, so the expansion is modelled as a fixed pure function
of those inputs. -/
def xmdSeed (hash hash_len : Nat) (dst message : List Nat) : Nat :=
  (message ++ dst).foldl
    (fun acc b => (acc * 131 + b % 256 + 1) % 18446744073709551616)
    ((hash * 4099 + hash_len) * 131 + dst.length + 3)

/-- Modelled from the spec: expand_message_xmd (spec 4.5 step 3), external
hash primitive abstracted; a deterministic pseudorandom byte string of
exactly len bytes, a pure function of all of its inputs. -/
def expand_message_xmd (hash hash_len : Nat) (dst message : List Nat)
    (len : Nat) : List Nat :=
  let s := xmdSeed hash hash_len dst message
  (List.range len).map (fun i => (s / 2 ^ (8 * (i % 8)) + i * 97 + i / 8) % 256)

/-- Modelled from the spec: HashToField (spec 4.5), body of
cvc_hash_to_field_nist256 missing from src/. count is a C int, so validation
rejects every count ≤ 0; on success the output array holds exactly count
field elements, the i-th being the big-endian value of the i-th L-byte chunk
of the expansion reduced modulo the field modulus p. -/
def cvc_hash_to_field_nist256 (hash hash_len : Nat) (dst message : List Nat)
    (count : Int) : cvc_hash_to_field_result_t × Option (List Nat) :=
  if count ≤ 0 then (.CVC_HASH_TO_FIELD_ERROR_INVALID_PARAMS, none)
  else
    let c := count.toNat
    let len_in_bytes := c * hashToFieldL
    if maxExpansionBytes < len_in_bytes then
      (.CVC_HASH_TO_FIELD_ERROR_EXPANSION_TOO_LARGE, none)
    else
      let uniform := expand_message_xmd hash hash_len dst message len_in_bytes
      (.CVC_HASH_TO_FIELD_SUCCESS, some ((List.range c).map (fun i =>
        bytesToNat ((uniform.drop (i * hashToFieldL)).take hashToFieldL)
          % fieldModulus)))

/-- Modelled from the spec: continuation of the key deriver after the
hash-to-field call returns (spec 4.6 steps 3-5): propagate a hash-to-field
failure, reduce the single field element modulo the curve order, reject a
zero scalar without re-sampling, extract key material. -/
def derive_from_h2f (res : cvc_hash_to_field_result_t × Option (List Nat)) :
    cvc_derive_key_result_t × Option nist256_key_material_t :=
  match res with
  | (.CVC_HASH_TO_FIELD_SUCCESS, some us) =>
    if us.headD 0 % curveOrder = 0 then (.CVC_DERIVE_KEY_ERROR_ZERO_SCALAR, none)
    else
      match nist256_big_to_key_material (us.headD 0 % curveOrder) with
      | some km => (.CVC_DERIVE_KEY_SUCCESS, some km)
      | none => (.CVC_DERIVE_KEY_ERROR_KEY_EXTRACTION_FAILED, none)
  | _ => (.CVC_DERIVE_KEY_ERROR_HASH_TO_FIELD_FAILED, none)

/-- Modelled from the spec: KeyDeriver (spec 4.6), body of
cvc_derive_secret_key_nist256 missing from src/. Concatenates master key and
context, obtains one field element via hash-to-field with SHA-256, reduces it
modulo the curve order, rejects a zero scalar without re-sampling, and
extracts key material. -/
def cvc_derive_secret_key_nist256 (master_key_bytes context dst : List Nat) :
    cvc_derive_key_result_t × Option nist256_key_material_t :=
  if maxCombinedInput < master_key_bytes.length + context.length then
    (.CVC_DERIVE_KEY_ERROR_INPUT_TOO_LARGE, none)
  else
    derive_from_h2f (cvc_hash_to_field_nist256 MC_SHA2 HASH_TYPE_NIST256 dst
      (master_key_bytes ++ context) 1)

/-! Basic facts about the scalar codec. -/

theorem bytesToNat_append_singleton (xs : List Nat) (b : Nat) :
    bytesToNat (xs ++ [b]) = bytesToNat xs * 256 + b % 256 := by
  simp [bytesToNat, List.foldl_append]

theorem length_natToBytesBE (w v : Nat) : (natToBytesBE w v).length = w := by
  induction w generalizing v with
  | zero => rfl
  | succ w ih => simp [natToBytesBE, ih]

theorem length_natToBytes32 (v : Nat) : (natToBytes32 v).length = 32 :=
  length_natToBytesBE 32 v

theorem bytesToNat_natToBytesBE (w v : Nat) :
    bytesToNat (natToBytesBE w v) = v % 256 ^ w := by
  induction w generalizing v with
  | zero => simp [natToBytesBE, bytesToNat, Nat.mod_one]
  | succ w ih =>
    rw [natToBytesBE, bytesToNat_append_singleton, ih, Nat.mod_mod_of_dvd _ dvd_rfl]
    rw [pow_succ, mul_comm (256 ^ w) 256, Nat.mod_mul]
    ring

theorem curveOrder_pos : 0 < curveOrder := by norm_num [curveOrder]

theorem curveOrder_lt_pow : curveOrder < 256 ^ 32 := by norm_num [curveOrder]

theorem bytesToNat_natToBytes32 (v : Nat) (h : v < 256 ^ 32) :
    bytesToNat (natToBytes32 v) = v := by
  rw [natToBytes32, bytesToNat_natToBytesBE, Nat.mod_eq_of_lt h]

theorem bytesToNat_natToBytes32_of_lt_order (v : Nat) (h : v < curveOrder) :
    bytesToNat (natToBytes32 v) = v :=
  bytesToNat_natToBytes32 v (h.trans curveOrder_lt_pow)

/-! Success-inversion lemmas for the modelled operations. -/

theorem big_to_key_material_some (d : Nat) (km : nist256_key_material_t)
    (h : nist256_big_to_key_material d = some km) :
    d % curveOrder ≠ 0 ∧
    km = { private_key_bytes := natToBytes32 d, public_point := d % curveOrder } := by
  unfold nist256_big_to_key_material at h
  split at h
  next hz => exact absurd h (by simp)
  next hz => exact ⟨hz, (Option.some.inj h).symm⟩

theorem add_secret_keys_km_inv (key1 key2 : Option (List Nat)) (r : Bool)
    (km : nist256_key_material_t)
    (h : (cvc_add_nist256_secret_keys key1 key2 r).2 = some km) :
    ∃ s, s ≠ 0 ∧ s < curveOrder ∧
      km = { private_key_bytes := natToBytes32 s, public_point := s } := by
  unfold cvc_add_nist256_secret_keys at h
  match key1, key2 with
  | none, _ => simp at h
  | some k1, none => simp at h
  | some k1, some k2 =>
    simp only at h
    split at h
    · simp at h
    split at h
    · simp at h
    split at h
    · simp at h
    split at h
    · simp at h
    split at h
    · simp at h
    split at h
    case _ km' heq =>
      simp only at h
      have hkm2 := Option.some.inj h
      subst hkm2
      obtain ⟨hne, hkm⟩ := big_to_key_material_some _ _ heq
      refine ⟨(bytesToNat k1 + bytesToNat k2) % curveOrder, ?_, Nat.mod_lt _ curveOrder_pos, ?_⟩
      · assumption
      · rw [hkm, Nat.mod_mod_of_dvd _ dvd_rfl]
    case _ heq =>
      simp at h

/-- The single field element produced by a count-1 hash-to-field call. -/
def h2fElement (hash hash_len : Nat) (dst message : List Nat) : Nat :=
  bytesToNat ((expand_message_xmd hash hash_len dst message hashToFieldL).take
    hashToFieldL) % fieldModulus

theorem h2f_count_one (hash hash_len : Nat) (dst message : List Nat) :
    cvc_hash_to_field_nist256 hash hash_len dst message 1 =
      (.CVC_HASH_TO_FIELD_SUCCESS, some [h2fElement hash hash_len dst message]) := by
  unfold cvc_hash_to_field_nist256 h2fElement
  rw [if_neg (by norm_num)]
  simp only [Int.toNat_one]
  rw [if_neg (by norm_num [maxExpansionBytes, hashToFieldL])]
  have hr1 : List.range 1 = [0] := rfl
  simp [hr1]

theorem derive_km_inv (m c dst : List Nat) (km : nist256_key_material_t)
    (h : (cvc_derive_secret_key_nist256 m c dst).2 = some km) :
    ∃ s, s ≠ 0 ∧ s < curveOrder ∧
      km = { private_key_bytes := natToBytes32 s, public_point := s } := by
  unfold cvc_derive_secret_key_nist256 at h
  split at h
  · simp at h
  · rw [h2f_count_one] at h
    simp only [derive_from_h2f, List.headD_cons] at h
    split at h
    · simp at h
    · split at h
      case _ km' heq =>
        simp only at h
        have hkm2 := Option.some.inj h
        subst hkm2
        obtain ⟨hne, hkm⟩ := big_to_key_material_some _ _ heq
        refine ⟨_ % curveOrder, by assumption, Nat.mod_lt _ curveOrder_pos, ?_⟩
        rw [hkm, Nat.mod_mod_of_dvd _ dvd_rfl]
      case _ heq =>
        simp at h

theorem add_public_keys_success_inv (key1 key2 : PointInput) (buf : Nat)
    (h : (cvc_add_nist256_public_keys key1 key2 buf).1 = .CVC_ECP_SUCCESS) :
    key1.len = 65 ∧ key2.len = 65 ∧
    ∃ p1 p2, key1.decoded = some p1 ∧ key2.decoded = some p2 ∧
      p1 % curveOrder ≠ 0 ∧ p2 % curveOrder ≠ 0 ∧
      (p1 + p2) % curveOrder ≠ 0 ∧ 65 ≤ buf := by
  unfold cvc_add_nist256_public_keys at h
  repeat' split at h
  all_goals try (exfalso; simp at h; done)
  exact ⟨by omega, by omega, _, _, by assumption, by assumption,
    by assumption, by assumption, by assumption, by omega⟩

theorem add_secret_keys_success_inv (a b : List Nat) (r : Bool)
    (h : (cvc_add_nist256_secret_keys (some a) (some b) r).1 =
      .CVC_ADD_SECRET_KEYS_SUCCESS) :
    r = true ∧ a.length = 32 ∧ b.length = 32 ∧
    bytesToNat a ≠ 0 ∧ bytesToNat a < curveOrder ∧
    bytesToNat b ≠ 0 ∧ bytesToNat b < curveOrder ∧
    (bytesToNat a + bytesToNat b) % curveOrder ≠ 0 := by
  unfold cvc_add_nist256_secret_keys at h
  simp only at h
  split at h
  · simp at h
  split at h
  · simp at h
  split at h
  · simp at h
  split at h
  · simp at h
  split at h
  · simp at h
  next hr hlen hk1 hk2 hz =>
    split at h
    · refine ⟨?_, ?_, ?_, ?_, ?_, ?_, ?_, hz⟩ <;> first
        | (cases r <;> simp_all)
        | omega
    · simp at h

theorem add_secret_keys_key1_inv (a b : List Nat) (r : Bool)
    (h : (cvc_add_nist256_secret_keys (some a) (some b) r).1 =
      .CVC_ADD_SECRET_KEYS_ERROR_INVALID_KEY1) :
    a.length = 32 ∧ b.length = 32 ∧
    (bytesToNat a = 0 ∨ curveOrder ≤ bytesToNat a) := by
  unfold cvc_add_nist256_secret_keys at h
  simp only at h
  split at h
  · simp at h
  split at h
  · simp at h
  split at h
  next hr hlen hbad => exact ⟨by omega, by omega, hbad⟩
  split at h
  · simp at h
  split at h
  · simp at h
  split at h
  · simp at h
  · simp at h

theorem add_secret_keys_key2_inv (a b : List Nat) (r : Bool)
    (h : (cvc_add_nist256_secret_keys (some a) (some b) r).1 =
      .CVC_ADD_SECRET_KEYS_ERROR_INVALID_KEY2) :
    a.length = 32 ∧ b.length = 32 ∧
    bytesToNat a ≠ 0 ∧ bytesToNat a < curveOrder ∧
    (bytesToNat b = 0 ∨ curveOrder ≤ bytesToNat b) := by
  unfold cvc_add_nist256_secret_keys at h
  simp only at h
  split at h
  · simp at h
  split at h
  · simp at h
  split at h
  · simp at h
  split at h
  next hr hlen hk1 hbad =>
    refine ⟨by omega, by omega, ?_, ?_, hbad⟩ <;> omega
  split at h
  · simp at h
  split at h
  · simp at h
  · simp at h

/-! Forward-evaluation lemmas for the success and arithmetic-error paths. -/

theorem big_to_key_material_eval (d : Nat) (h0 : d ≠ 0) (hd : d < curveOrder) :
    nist256_big_to_key_material d =
      some { private_key_bytes := natToBytes32 d, public_point := d } := by
  unfold nist256_big_to_key_material
  rw [Nat.mod_eq_of_lt hd, if_neg h0]

theorem add_secret_keys_eval (a b : List Nat)
    (ha : a.length = 32) (hb : b.length = 32)
    (ha0 : bytesToNat a ≠ 0) (han : bytesToNat a < curveOrder)
    (hb0 : bytesToNat b ≠ 0) (hbn : bytesToNat b < curveOrder)
    (hs : (bytesToNat a + bytesToNat b) % curveOrder ≠ 0) :
    cvc_add_nist256_secret_keys (some a) (some b) true =
      (.CVC_ADD_SECRET_KEYS_SUCCESS,
       some { private_key_bytes :=
                natToBytes32 ((bytesToNat a + bytesToNat b) % curveOrder),
              public_point := (bytesToNat a + bytesToNat b) % curveOrder }) := by
  unfold cvc_add_nist256_secret_keys
  simp only
  rw [if_neg (by simp), if_neg (by omega), if_neg (by omega), if_neg (by omega),
    if_neg hs, big_to_key_material_eval _ hs (Nat.mod_lt _ curveOrder_pos)]

theorem add_public_keys_eval (p1 p2 : Nat) (buf : Nat)
    (h1 : p1 % curveOrder ≠ 0) (h2 : p2 % curveOrder ≠ 0)
    (hs : (p1 + p2) % curveOrder ≠ 0) (hb : 65 ≤ buf) :
    cvc_add_nist256_public_keys (encodePoint p1) (encodePoint p2) buf =
      (.CVC_ECP_SUCCESS, some ((p1 + p2) % curveOrder)) := by
  unfold cvc_add_nist256_public_keys encodePoint
  simp only
  rw [if_neg (by omega), if_neg (by omega)]
  rw [Nat.mod_mod_of_dvd p1 dvd_rfl, Nat.mod_mod_of_dvd p2 dvd_rfl,
    if_neg h1, if_neg h2, ← Nat.add_mod, if_neg hs, if_neg (by omega)]

/-- C1: for private scalars d1, d2 in [1, n-1] whose sum mod n is nonzero,
adding the public keys d1·G and d2·G with cvc_add_nist256_public_keys yields
exactly the public key of the KeyMaterial returned by
cvc_add_nist256_secret_keys on d1 and d2: scalar combination and point
combination commute with d ↦ d·G. -/
theorem C1_scalar_point_homomorphism (d1 d2 : Nat)
    (h11 : 1 ≤ d1) (h1n : d1 < curveOrder)
    (h21 : 1 ≤ d2) (h2n : d2 < curveOrder)
    (hs : (d1 + d2) % curveOrder ≠ 0) :
    ∃ km : nist256_key_material_t,
      cvc_add_nist256_secret_keys (some (natToBytes32 d1)) (some (natToBytes32 d2)) true
        = (.CVC_ADD_SECRET_KEYS_SUCCESS, some km) ∧
      cvc_add_nist256_public_keys (encodePoint d1) (encodePoint d2) 65
        = (.CVC_ECP_SUCCESS, some km.public_point) := by
  have e1 := bytesToNat_natToBytes32_of_lt_order d1 h1n
  have e2 := bytesToNat_natToBytes32_of_lt_order d2 h2n
  refine ⟨_, add_secret_keys_eval _ _ (length_natToBytes32 d1) (length_natToBytes32 d2)
    (by omega) (by omega) (by omega) (by omega) (by rw [e1, e2]; exact hs), ?_⟩
  rw [add_public_keys_eval d1 d2 65 (by rw [Nat.mod_eq_of_lt h1n]; omega)
    (by rw [Nat.mod_eq_of_lt h2n]; omega) hs (by omega)]
  show _ = (_, some ((bytesToNat (natToBytes32 d1) + bytesToNat (natToBytes32 d2)) % curveOrder))
  rw [e1, e2]

/-- Witness for C1 at d1 = d2 = 1. -/
theorem C1_scalar_point_homomorphism_witness :
    ((1:Nat) ≤ 1 ∧ (1:Nat) < curveOrder ∧ (1 + 1) % curveOrder ≠ 0) ∧
    (∃ km : nist256_key_material_t,
      cvc_add_nist256_secret_keys (some (natToBytes32 1)) (some (natToBytes32 1)) true
        = (.CVC_ADD_SECRET_KEYS_SUCCESS, some km) ∧
      cvc_add_nist256_public_keys (encodePoint 1) (encodePoint 1) 65
        = (.CVC_ECP_SUCCESS, some km.public_point)) :=
  ⟨⟨le_refl 1, by decide, by decide⟩,
   C1_scalar_point_homomorphism 1 1 (le_refl 1) (by decide) (le_refl 1) (by decide) (by decide)⟩

/-- C2: for 32-byte big-endian scalars a, b with values in [1, n-1] and
nonzero sum mod n, cvc_add_nist256_secret_keys succeeds, the private key
bytes of the result encode exactly (a+b) mod n (a value in [1, n-1]), and
the public key is ((a+b) mod n)·G. -/
theorem C2_combine_secret_functional (a b : List Nat)
    (ha : a.length = 32) (hb : b.length = 32)
    (ha1 : 1 ≤ bytesToNat a) (han : bytesToNat a < curveOrder)
    (hb1 : 1 ≤ bytesToNat b) (hbn : bytesToNat b < curveOrder)
    (hs : (bytesToNat a + bytesToNat b) % curveOrder ≠ 0) :
    cvc_add_nist256_secret_keys (some a) (some b) true
      = (.CVC_ADD_SECRET_KEYS_SUCCESS,
         some { private_key_bytes :=
                  natToBytes32 ((bytesToNat a + bytesToNat b) % curveOrder),
                public_point := (bytesToNat a + bytesToNat b) % curveOrder }) ∧
    1 ≤ (bytesToNat a + bytesToNat b) % curveOrder ∧
    (bytesToNat a + bytesToNat b) % curveOrder < curveOrder :=
  ⟨add_secret_keys_eval a b ha hb (by omega) han (by omega) hbn hs,
   by omega, Nat.mod_lt _ curveOrder_pos⟩

/-- Witness for C2 at a = b = the encoding of the scalar 1: combining 1 with 1
yields private key 2 and public key 2·G, the spec's end-to-end example. -/
theorem C2_combine_secret_functional_witness :
    ((natToBytes32 1).length = 32 ∧ 1 ≤ bytesToNat (natToBytes32 1) ∧
     bytesToNat (natToBytes32 1) < curveOrder ∧
     (bytesToNat (natToBytes32 1) + bytesToNat (natToBytes32 1)) % curveOrder ≠ 0) ∧
    cvc_add_nist256_secret_keys (some (natToBytes32 1)) (some (natToBytes32 1)) true
      = (.CVC_ADD_SECRET_KEYS_SUCCESS,
         some { private_key_bytes := natToBytes32 2, public_point := 2 }) := by
  refine ⟨⟨by decide, by decide, by decide, by decide⟩, ?_⟩
  have h := (C2_combine_secret_functional (natToBytes32 1) (natToBytes32 1)
    (by decide) (by decide) (by decide) (by decide) (by decide) (by decide) (by decide)).1
  rw [h]
  decide

/-- C4: arithmetic-result failures are detected after the group operation:
combining the valid scalar k with n-k fails with the zero-result error, and
adding the valid point P = k·G to its negation -P = (n-k)·G fails with the
infinity-result error, for every output buffer size. -/
theorem C4_zero_and_infinity_results (k : Nat)
    (hk1 : 1 ≤ k) (hkn : k < curveOrder) (buf : Nat) :
    cvc_add_nist256_secret_keys
        (some (natToBytes32 k)) (some (natToBytes32 (curveOrder - k))) true
      = (.CVC_ADD_SECRET_KEYS_ERROR_RESULT_ZERO, none) ∧
    cvc_add_nist256_public_keys (encodePoint k) (encodePoint (curveOrder - k)) buf
      = (.CVC_ECP_ERROR_RESULT_AT_INFINITY, none) := by
  have e1 := bytesToNat_natToBytes32_of_lt_order k hkn
  have e2 := bytesToNat_natToBytes32_of_lt_order (curveOrder - k) (by omega)
  have hsum : k + (curveOrder - k) = curveOrder := by omega
  constructor
  · unfold cvc_add_nist256_secret_keys
    simp only
    rw [if_neg (by simp), if_neg (by simp [length_natToBytes32]),
      if_neg (by omega), if_neg (by omega), if_pos (by rw [e1, e2, hsum, Nat.mod_self])]
  · unfold cvc_add_nist256_public_keys encodePoint
    simp only
    rw [if_neg (by omega), if_neg (by omega),
      Nat.mod_mod_of_dvd k dvd_rfl, Nat.mod_mod_of_dvd (curveOrder - k) dvd_rfl,
      if_neg (by rw [Nat.mod_eq_of_lt hkn]; omega),
      if_neg (by rw [Nat.mod_eq_of_lt (show curveOrder - k < curveOrder by omega)]; omega),
      ← Nat.add_mod, if_pos (by rw [hsum, Nat.mod_self])]

/-- Witness for C4 at k = 1 and a 65-byte output buffer. -/
theorem C4_zero_and_infinity_results_witness :
    ((1:Nat) ≤ 1 ∧ (1:Nat) < curveOrder) ∧
    (cvc_add_nist256_secret_keys
        (some (natToBytes32 1)) (some (natToBytes32 (curveOrder - 1))) true
      = (.CVC_ADD_SECRET_KEYS_ERROR_RESULT_ZERO, none) ∧
    cvc_add_nist256_public_keys (encodePoint 1) (encodePoint (curveOrder - 1)) 65
      = (.CVC_ECP_ERROR_RESULT_AT_INFINITY, none)) :=
  ⟨⟨le_refl 1, by decide⟩, C4_zero_and_infinity_results 1 (le_refl 1) (by decide) 65⟩

/-- C3: every KeyMaterial produced by a successful operation (secret-key
combination, key derivation, or extraction from a 256-bit scalar) satisfies
the record invariant: its public point is a valid point, not at infinity, in
canonical range, equal to the scalar decoded from private_key_bytes times the
base point G. -/
theorem C3_key_material_invariant (key1 key2 : Option (List Nat)) (r : Bool)
    (m c dst : List Nat) (d : Nat) (km : nist256_key_material_t)
    (h : (cvc_add_nist256_secret_keys key1 key2 r).2 = some km ∨
         (cvc_derive_secret_key_nist256 m c dst).2 = some km ∨
         (d < 256 ^ 32 ∧ nist256_big_to_key_material d = some km)) :
    km.public_point ≠ 0 ∧ km.public_point < curveOrder ∧
    km.public_point = bytesToNat km.private_key_bytes % curveOrder := by
  rcases h with h | h | ⟨hd, h⟩
  · obtain ⟨s, h0, hn, hkm⟩ := add_secret_keys_km_inv _ _ _ _ h
    subst hkm
    refine ⟨h0, hn, ?_⟩
    show s = bytesToNat (natToBytes32 s) % curveOrder
    rw [bytesToNat_natToBytes32_of_lt_order s hn, Nat.mod_eq_of_lt hn]
  · obtain ⟨s, h0, hn, hkm⟩ := derive_km_inv _ _ _ _ h
    subst hkm
    refine ⟨h0, hn, ?_⟩
    show s = bytesToNat (natToBytes32 s) % curveOrder
    rw [bytesToNat_natToBytes32_of_lt_order s hn, Nat.mod_eq_of_lt hn]
  · obtain ⟨h0, hkm⟩ := big_to_key_material_some _ _ h
    subst hkm
    refine ⟨h0, Nat.mod_lt _ curveOrder_pos, ?_⟩
    show d % curveOrder = bytesToNat (natToBytes32 d) % curveOrder
    rw [bytesToNat_natToBytes32 d hd]

/-- Witness for C3 through the extractor branch at d = 1. -/
theorem C3_key_material_invariant_witness :
    ((cvc_add_nist256_secret_keys none none false).2 =
        some { private_key_bytes := natToBytes32 1, public_point := 1 } ∨
     (cvc_derive_secret_key_nist256 [] [] []).2 =
        some { private_key_bytes := natToBytes32 1, public_point := 1 } ∨
     ((1:Nat) < 256 ^ 32 ∧ nist256_big_to_key_material 1 =
        some { private_key_bytes := natToBytes32 1, public_point := 1 })) ∧
    (({ private_key_bytes := natToBytes32 1, public_point := 1 } :
        nist256_key_material_t).public_point ≠ 0 ∧
     ({ private_key_bytes := natToBytes32 1, public_point := 1 } :
        nist256_key_material_t).public_point < curveOrder ∧
     ({ private_key_bytes := natToBytes32 1, public_point := 1 } :
        nist256_key_material_t).public_point =
       bytesToNat ({ private_key_bytes := natToBytes32 1, public_point := 1 } :
        nist256_key_material_t).private_key_bytes % curveOrder) :=
  have hbr : (cvc_add_nist256_secret_keys none none false).2 =
        some { private_key_bytes := natToBytes32 1, public_point := 1 } ∨
      (cvc_derive_secret_key_nist256 [] [] []).2 =
        some { private_key_bytes := natToBytes32 1, public_point := 1 } ∨
      ((1:Nat) < 256 ^ 32 ∧ nist256_big_to_key_material 1 =
        some { private_key_bytes := natToBytes32 1, public_point := 1 }) :=
    Or.inr (Or.inr ⟨by norm_num, by decide⟩)
  ⟨hbr, C3_key_material_invariant none none false [] [] [] 1 _ hbr⟩

/-- C5: input validation always rejects: the public-key combiner returns an
error whenever either input has byte length other than 65, is not a curve
point, or is the point at infinity; the secret-key combiner returns an error
whenever either input has byte length other than 32 or its scalar value is 0
or at least the curve order. -/
theorem C5_validation_rejects :
    (∀ (key1 key2 : PointInput) (buf : Nat),
      (key1.len ≠ 65 ∨ key2.len ≠ 65 ∨ key1.decoded = none ∨ key2.decoded = none ∨
       (∃ p, key1.decoded = some p ∧ p % curveOrder = 0) ∨
       (∃ p, key2.decoded = some p ∧ p % curveOrder = 0)) →
      (cvc_add_nist256_public_keys key1 key2 buf).1 ≠ .CVC_ECP_SUCCESS) ∧
    (∀ (a b : List Nat) (r : Bool),
      (a.length ≠ 32 ∨ b.length ≠ 32 ∨ bytesToNat a = 0 ∨ curveOrder ≤ bytesToNat a ∨
       bytesToNat b = 0 ∨ curveOrder ≤ bytesToNat b) →
      (cvc_add_nist256_secret_keys (some a) (some b) r).1 ≠
        .CVC_ADD_SECRET_KEYS_SUCCESS) := by
  constructor
  · intro key1 key2 buf hbad hsucc
    obtain ⟨hl1, hl2, p1, p2, hp1, hp2, hi1, hi2, hr, hb⟩ :=
      add_public_keys_success_inv _ _ _ hsucc
    rcases hbad with h | h | h | h | ⟨p, hp, hz⟩ | ⟨p, hp, hz⟩
    · exact h hl1
    · exact h hl2
    · rw [h] at hp1; exact Option.noConfusion hp1
    · rw [h] at hp2; exact Option.noConfusion hp2
    · rw [hp] at hp1; rw [Option.some.inj hp1] at hz; exact hi1 hz
    · rw [hp] at hp2; rw [Option.some.inj hp2] at hz; exact hi2 hz
  · intro a b r hbad hsucc
    obtain ⟨-, ha, hb, h1, h2, h3, h4, -⟩ := add_secret_keys_success_inv _ _ _ hsucc
    rcases hbad with h | h | h | h | h | h <;> omega

/-- Witness for C5: a 64-byte first point input and a zero first scalar are
both rejected. -/
theorem C5_validation_rejects_witness :
    (cvc_add_nist256_public_keys
        { len := 64, decoded := some 1 } { len := 65, decoded := some 1 } 65).1 ≠
      .CVC_ECP_SUCCESS ∧
    (cvc_add_nist256_secret_keys
        (some (natToBytes32 0)) (some (natToBytes32 1)) true).1 ≠
      .CVC_ADD_SECRET_KEYS_SUCCESS :=
  ⟨C5_validation_rejects.1 _ _ _ (Or.inl (by decide)),
   C5_validation_rejects.2 _ _ _ (Or.inr (Or.inr (Or.inl (by decide))))⟩

/-- C6: hash-to-field and key derivation are deterministic pure functions of
their inputs: two calls with identical arguments return identical results,
and neither consumes randomness. -/
theorem C6_determinism :
    (∀ (hash1 hl1 : Nat) (dst1 msg1 : List Nat) (c1 : Int)
       (hash2 hl2 : Nat) (dst2 msg2 : List Nat) (c2 : Int),
      hash1 = hash2 → hl1 = hl2 → dst1 = dst2 → msg1 = msg2 → c1 = c2 →
      cvc_hash_to_field_nist256 hash1 hl1 dst1 msg1 c1 =
        cvc_hash_to_field_nist256 hash2 hl2 dst2 msg2 c2) ∧
    (∀ m1 c1 d1 m2 c2 d2 : List Nat, m1 = m2 → c1 = c2 → d1 = d2 →
      cvc_derive_secret_key_nist256 m1 c1 d1 =
        cvc_derive_secret_key_nist256 m2 c2 d2) := by
  constructor
  · intro _ _ _ _ _ _ _ _ _ _ h1 h2 h3 h4 h5
    subst h1; subst h2; subst h3; subst h4; subst h5; rfl
  · intro _ _ _ _ _ _ h1 h2 h3
    subst h1; subst h2; subst h3; rfl

/-- Witness for C6 at concrete equal argument pairs. -/
theorem C6_determinism_witness :
    cvc_hash_to_field_nist256 2 32 [7] [1, 2] 1 =
      cvc_hash_to_field_nist256 2 32 [7] [1, 2] 1 ∧
    cvc_derive_secret_key_nist256 [1] [2] [3] =
      cvc_derive_secret_key_nist256 [1] [2] [3] :=
  ⟨C6_determinism.1 2 32 [7] [1, 2] 1 2 32 [7] [1, 2] 1 rfl rfl rfl rfl rfl,
   C6_determinism.2 [1] [2] [3] [1] [2] [3] rfl rfl rfl⟩

/-- C7: in key derivation the field element from hash-to-field is reduced
modulo the curve order n; the operation fails with the zero-scalar error if
and only if that reduction is zero, and otherwise succeeds with exactly that
reduced scalar as the private key — there is no re-sampling or retry. -/
theorem C7_zero_scalar_iff (master context dst : List Nat)
    (hlen : master.length + context.length ≤ maxCombinedInput) :
    ((cvc_derive_secret_key_nist256 master context dst).1 =
        .CVC_DERIVE_KEY_ERROR_ZERO_SCALAR ↔
      h2fElement MC_SHA2 HASH_TYPE_NIST256 dst (master ++ context) % curveOrder = 0) ∧
    (h2fElement MC_SHA2 HASH_TYPE_NIST256 dst (master ++ context) % curveOrder ≠ 0 →
      cvc_derive_secret_key_nist256 master context dst =
        (.CVC_DERIVE_KEY_SUCCESS,
         some { private_key_bytes := natToBytes32
                  (h2fElement MC_SHA2 HASH_TYPE_NIST256 dst (master ++ context)
                    % curveOrder),
                public_point :=
                  h2fElement MC_SHA2 HASH_TYPE_NIST256 dst (master ++ context)
                    % curveOrder })) := by
  unfold cvc_derive_secret_key_nist256
  rw [if_neg (by omega), h2f_count_one]
  simp only [derive_from_h2f, List.headD_cons]
  constructor
  · constructor
    · intro h
      by_contra hne
      rw [if_neg hne,
        big_to_key_material_eval _ hne (Nat.mod_lt _ curveOrder_pos)] at h
      simp at h
    · intro h
      rw [if_pos h]
  · intro hne
    rw [if_neg hne, big_to_key_material_eval _ hne (Nat.mod_lt _ curveOrder_pos)]

/-- Witness for C7 at a small concrete input. -/
theorem C7_zero_scalar_iff_witness :
    (([1] : List Nat).length + ([2] : List Nat).length ≤ maxCombinedInput) ∧
    (((cvc_derive_secret_key_nist256 [1] [2] [3]).1 =
        .CVC_DERIVE_KEY_ERROR_ZERO_SCALAR ↔
      h2fElement MC_SHA2 HASH_TYPE_NIST256 [3] ([1] ++ [2]) % curveOrder = 0) ∧
    (h2fElement MC_SHA2 HASH_TYPE_NIST256 [3] ([1] ++ [2]) % curveOrder ≠ 0 →
      cvc_derive_secret_key_nist256 [1] [2] [3] =
        (.CVC_DERIVE_KEY_SUCCESS,
         some { private_key_bytes := natToBytes32
                  (h2fElement MC_SHA2 HASH_TYPE_NIST256 [3] ([1] ++ [2])
                    % curveOrder),
                public_point :=
                  h2fElement MC_SHA2 HASH_TYPE_NIST256 [3] ([1] ++ [2])
                    % curveOrder }))) :=
  ⟨by decide, C7_zero_scalar_iff [1] [2] [3] (by decide)⟩

/-- C8: hash-to-field rejects every count at most 0 with the invalid-params
error; there is a fixed implementation maximum (maxExpansionBytes) such that
every count whose expansion length count·L exceeds it fails with the
expansion-too-large error; every accepted count produces exactly count field
elements, the i-th being the big-endian value of the i-th L-byte chunk of the
expansion reduced modulo the field modulus. -/
theorem C8_hash_to_field_contract :
    (∀ (hash hl : Nat) (dst msg : List Nat) (count : Int), count ≤ 0 →
      cvc_hash_to_field_nist256 hash hl dst msg count =
        (.CVC_HASH_TO_FIELD_ERROR_INVALID_PARAMS, none)) ∧
    (∀ (hash hl : Nat) (dst msg : List Nat) (count : Int), 0 < count →
      maxExpansionBytes < count.toNat * hashToFieldL →
      cvc_hash_to_field_nist256 hash hl dst msg count =
        (.CVC_HASH_TO_FIELD_ERROR_EXPANSION_TOO_LARGE, none)) ∧
    (∀ (hash hl : Nat) (dst msg : List Nat) (count : Int), 0 < count →
      count.toNat * hashToFieldL ≤ maxExpansionBytes →
      ∃ l, cvc_hash_to_field_nist256 hash hl dst msg count =
          (.CVC_HASH_TO_FIELD_SUCCESS, some l) ∧
        l.length = count.toNat ∧
        ∀ i, i < count.toNat → l.getD i 0 =
          bytesToNat (((expand_message_xmd hash hl dst msg
              (count.toNat * hashToFieldL)).drop (i * hashToFieldL)).take
            hashToFieldL) % fieldModulus) := by
  refine ⟨?_, ?_, ?_⟩
  · intro hash hl dst msg count hc
    unfold cvc_hash_to_field_nist256
    rw [if_pos hc]
  · intro hash hl dst msg count hc hbig
    unfold cvc_hash_to_field_nist256
    rw [if_neg (by omega), if_pos hbig]
  · intro hash hl dst msg count hc hle
    unfold cvc_hash_to_field_nist256
    rw [if_neg (by omega), if_neg (by omega)]
    refine ⟨_, rfl, by simp, ?_⟩
    intro i hi
    rw [List.getD_eq_getElem _ _ (by simpa using hi)]
    simp

/-- Witness for C8: count 0 is rejected, count 200 exceeds the expansion
bound, count 2 produces two field elements. -/
theorem C8_hash_to_field_contract_witness :
    cvc_hash_to_field_nist256 2 32 [] [] 0 =
      (.CVC_HASH_TO_FIELD_ERROR_INVALID_PARAMS, none) ∧
    cvc_hash_to_field_nist256 2 32 [] [] 200 =
      (.CVC_HASH_TO_FIELD_ERROR_EXPANSION_TOO_LARGE, none) ∧
    (∃ l, cvc_hash_to_field_nist256 2 32 [] [] 2 =
        (.CVC_HASH_TO_FIELD_SUCCESS, some l) ∧
      l.length = (2:Int).toNat ∧
      ∀ i, i < (2:Int).toNat → l.getD i 0 =
        bytesToNat (((expand_message_xmd 2 32 [] []
            ((2:Int).toNat * hashToFieldL)).drop (i * hashToFieldL)).take
          hashToFieldL) % fieldModulus) :=
  ⟨C8_hash_to_field_contract.1 2 32 [] [] 0 (by decide),
   C8_hash_to_field_contract.2.1 2 32 [] [] 200 (by decide) (by decide),
   C8_hash_to_field_contract.2.2 2 32 [] [] 2 (by decide) (by decide)⟩

/-- C9 counterexample: the claim fails as stated over all 32-byte inputs —
with first key 0 and second key 1 the two argument orders return different
result codes (INVALID_KEY1 versus INVALID_KEY2). -/
theorem C9_commutativity_counterexample :
    (cvc_add_nist256_secret_keys
        (some (natToBytes32 0)) (some (natToBytes32 1)) true).1 ≠
    (cvc_add_nist256_secret_keys
        (some (natToBytes32 1)) (some (natToBytes32 0)) true).1 := by
  decide

/-- C9 amended: cvc_add_nist256_secret_keys is commutative on every pair of
32-byte inputs in which both or neither scalar is out of range (in
particular on all pairs of valid keys): the two argument orders return the
same result code and identical key material. -/
theorem C9_commutativity_amended (a b : List Nat) (r : Bool)
    (h : (bytesToNat a = 0 ∨ curveOrder ≤ bytesToNat a) ↔
         (bytesToNat b = 0 ∨ curveOrder ≤ bytesToNat b)) :
    cvc_add_nist256_secret_keys (some a) (some b) r =
      cvc_add_nist256_secret_keys (some b) (some a) r := by
  unfold cvc_add_nist256_secret_keys
  simp only
  by_cases hr : r = false
  · rw [if_pos hr, if_pos hr]
  · rw [if_neg hr, if_neg hr]
    by_cases hlen : a.length ≠ 32 ∨ b.length ≠ 32
    · rw [if_pos hlen, if_pos (by tauto)]
    · rw [if_neg hlen,
        if_neg (show ¬(b.length ≠ 32 ∨ a.length ≠ 32) by tauto)]
      by_cases hA : bytesToNat a = 0 ∨ curveOrder ≤ bytesToNat a
      · rw [if_pos hA, if_pos (h.mp hA)]
      · have hB : ¬(bytesToNat b = 0 ∨ curveOrder ≤ bytesToNat b) :=
          fun hBv => hA (h.mpr hBv)
        rw [if_neg hA, if_neg hB, if_neg hB, if_neg hA,
          Nat.add_comm (bytesToNat a) (bytesToNat b)]

/-- Witness for C9's amended claim at the valid pair (1, 2). -/
theorem C9_commutativity_amended_witness :
    (((bytesToNat (natToBytes32 1) = 0 ∨
        curveOrder ≤ bytesToNat (natToBytes32 1)) ↔
      (bytesToNat (natToBytes32 2) = 0 ∨
        curveOrder ≤ bytesToNat (natToBytes32 2)))) ∧
    cvc_add_nist256_secret_keys (some (natToBytes32 1)) (some (natToBytes32 2)) true =
      cvc_add_nist256_secret_keys (some (natToBytes32 2)) (some (natToBytes32 1)) true :=
  ⟨by decide,
   C9_commutativity_amended (natToBytes32 1) (natToBytes32 2) true (by decide)⟩

/-- C10: length and NULL-pointer problems are reported as INVALID_PARAMS
(code -1), while INVALID_KEY1 (-2) and INVALID_KEY2 (-3) occur only for
correctly sized inputs whose scalar is zero or at least the curve order
(for KEY2, with a first key that passed its range check). -/
theorem C10_param_error_discrimination :
    (∀ (key1 key2 : Option (List Nat)) (r : Bool),
      (key1 = none ∨ key2 = none ∨ r = false ∨
       (∃ x, key1 = some x ∧ x.length ≠ 32) ∨
       (∃ x, key2 = some x ∧ x.length ≠ 32)) →
      (cvc_add_nist256_secret_keys key1 key2 r).1 =
        .CVC_ADD_SECRET_KEYS_ERROR_INVALID_PARAMS) ∧
    (∀ (a b : List Nat) (r : Bool),
      (cvc_add_nist256_secret_keys (some a) (some b) r).1 =
        .CVC_ADD_SECRET_KEYS_ERROR_INVALID_KEY1 →
      a.length = 32 ∧ b.length = 32 ∧
      (bytesToNat a = 0 ∨ curveOrder ≤ bytesToNat a)) ∧
    (∀ (a b : List Nat) (r : Bool),
      (cvc_add_nist256_secret_keys (some a) (some b) r).1 =
        .CVC_ADD_SECRET_KEYS_ERROR_INVALID_KEY2 →
      a.length = 32 ∧ b.length = 32 ∧ bytesToNat a ≠ 0 ∧
      bytesToNat a < curveOrder ∧
      (bytesToNat b = 0 ∨ curveOrder ≤ bytesToNat b)) ∧
    cvc_add_secret_keys_result_t.code
      .CVC_ADD_SECRET_KEYS_ERROR_INVALID_PARAMS = -1 ∧
    cvc_add_secret_keys_result_t.code
      .CVC_ADD_SECRET_KEYS_ERROR_INVALID_KEY1 = -2 ∧
    cvc_add_secret_keys_result_t.code
      .CVC_ADD_SECRET_KEYS_ERROR_INVALID_KEY2 = -3 := by
  refine ⟨?_, add_secret_keys_key1_inv, add_secret_keys_key2_inv, rfl, rfl, rfl⟩
  intro key1 key2 r hbad
  rcases hbad with h | h | h | ⟨x, hx, hlen⟩ | ⟨x, hx, hlen⟩
  · subst h; cases key2 <;> rfl
  · subst h; cases key1 <;> rfl
  · subst h; cases key1 <;> cases key2 <;> simp [cvc_add_nist256_secret_keys]
  · subst hx
    cases key2 with
    | none => rfl
    | some y => cases r <;> simp [cvc_add_nist256_secret_keys, hlen]
  · subst hx
    cases key1 with
    | none => rfl
    | some y => cases r <;> simp [cvc_add_nist256_secret_keys, hlen]

/-- Witness for C10: a NULL first key gives INVALID_PARAMS; the pair (0, 1)
gives INVALID_KEY1 bounds; the pair (1, 0) gives INVALID_KEY2 bounds. -/
theorem C10_param_error_discrimination_witness :
    (cvc_add_nist256_secret_keys none (some (natToBytes32 1)) true).1 =
      .CVC_ADD_SECRET_KEYS_ERROR_INVALID_PARAMS ∧
    ((natToBytes32 0).length = 32 ∧ (natToBytes32 1).length = 32 ∧
     (bytesToNat (natToBytes32 0) = 0 ∨
      curveOrder ≤ bytesToNat (natToBytes32 0))) ∧
    ((natToBytes32 1).length = 32 ∧ (natToBytes32 0).length = 32 ∧
     bytesToNat (natToBytes32 1) ≠ 0 ∧
     bytesToNat (natToBytes32 1) < curveOrder ∧
     (bytesToNat (natToBytes32 0) = 0 ∨
      curveOrder ≤ bytesToNat (natToBytes32 0))) :=
  ⟨C10_param_error_discrimination.1 none (some (natToBytes32 1)) true (Or.inl rfl),
   C10_param_error_discrimination.2.1 (natToBytes32 0) (natToBytes32 1) true (by decide),
   C10_param_error_discrimination.2.2.1 (natToBytes32 1) (natToBytes32 0) true (by decide)⟩

end CVC
